import Mathlib

/-
Verification of the recurrence and notification-scheduling engine of the
dontforget2 household task-reminder application.

Shallow-embedding conventions used throughout this file:

* Instants handled by the recurrence code (`getNextOccurrence` and the
  schedulers) are modeled as whole minutes on an integer time line, because
  every date that code produces has its seconds and milliseconds zeroed via
  `Date.setHours(h, m, 0, 0)`; the sub-minute component of an input instant
  is discarded by the source for every generated date, so dropping it loses
  nothing the code can observe.  `completionDelayMs` is in milliseconds, the
  unit its source uses; only differences matter there.
* JS `Date.getDay()` (0 = Sunday .. 6 = Saturday) is modeled on epoch-day
  indexes: epoch day 0 (1970-01-01) was a Thursday, weekday 4.
* JS `Math.floor(x / c)` for a positive constant `c` is Euclidean division
  `x / c` on ℤ, and the JS test `x % c === 0` (truncated remainder) holds
  exactly when `c ∣ x`, which is the Euclidean test `x % c = 0` used here.
* The weekday strings `"0"`..`"6"` stored in `recurrenceConfig.selectedDays`
  are modeled as `Fin 7`, the type the data model gives them (a set of
  weekdays 0..6).
* Firestore is modeled as a total environment mapping ids to optional
  records; the external notification service's `scheduleNotificationAsync`
  calls are modeled by returning the list of requests issued.
-/

/-! ## Time and weekday arithmetic -/

def minutesPerDay : ℤ := 1440

def minutesPerWeek : ℤ := 10080

/-- JS `Date.getDay()` of the day with epoch-day index `d`:
0 = Sunday, …, 6 = Saturday (epoch day 0 was a Thursday, weekday 4). -/
def weekdayOf (d : ℤ) : Fin 7 :=
  ⟨((d + 4) % 7).toNat, by
    have h1 : 0 ≤ (d + 4) % 7 := Int.emod_nonneg _ (by norm_num)
    have h2 : (d + 4) % 7 < 7 := Int.emod_lt_of_pos _ (by norm_num)
    omega⟩

/-! ## RecurrencePolicy: NotificationService.getNextOccurrence
(src/src/services/NotificationService.ts lines 148-180, identical copy in
src/unnamed/part_013) -/

/-- The candidate-acceptance test of the scan loop in `getNextOccurrence`:
the candidate day (the `(j+1)`-th day after `today`) has a selected weekday,
and the number of whole weeks elapsed since `startDate`
(`Math.floor((nextDate - startDate) / week)`) is an exact multiple of
`weekFrequency` (JS `weeksSinceStart % weekFrequency === 0`). -/
def occurrenceHit (startDate : ℤ) (selectedDays : List (Fin 7)) (weekFrequency : ℤ)
    (today : ℤ) (j : ℕ) : Bool :=
  decide (weekdayOf ((today + minutesPerDay * ((j : ℤ) + 1)) / minutesPerDay) ∈ selectedDays) &&
  decide (((today + minutesPerDay * ((j : ℤ) + 1) - startDate) / minutesPerWeek) % weekFrequency = 0)

/-- `NotificationService.getNextOccurrence(startDate, selectedDays, weekFrequency)`.
`now` is the current instant the source reads with `new Date()`.  `today` is
`now` with its time-of-day replaced by `startDate`'s hours and minutes.  If
`startDate` is strictly in the future and its weekday is selected it is
returned unchanged; otherwise the code scans day-by-day starting tomorrow, up
to `7 * weekFrequency * 2` days, returning the first accepted candidate, and
the last scanned day (`today + maxDays`) as fallback when the scan exhausts. -/
def getNextOccurrence (startDate : ℤ) (selectedDays : List (Fin 7)) (weekFrequency : ℤ)
    (now : ℤ) : ℤ :=
  let today := minutesPerDay * (now / minutesPerDay) + startDate % minutesPerDay
  if startDate > today ∧ weekdayOf (startDate / minutesPerDay) ∈ selectedDays then
    startDate
  else
    match (List.range (7 * weekFrequency * 2).toNat).find?
        (occurrenceHit startDate selectedDays weekFrequency today) with
    | some j => today + minutesPerDay * ((j : ℤ) + 1)
    | none => today + minutesPerDay * ((7 * weekFrequency * 2).toNat : ℤ)

/-! ## JS string helpers (`toLowerCase`, `includes`) -/

/-- `List`-level model of JS `String.prototype.startsWith`. -/
def startsWithCS : List Char → List Char → Bool
  | _, [] => true
  | [], _ :: _ => false
  | a :: s, b :: t => a == b && startsWithCS s t

/-- `List`-level model of JS `String.prototype.includes` (substring test). -/
def containsSub : List Char → List Char → Bool
  | [], sub => startsWithCS [] sub
  | s@(_ :: s'), sub => startsWithCS s sub || containsSub s' sub

/-- JS `String.prototype.toLowerCase`. -/
def lowerStr (s : String) : String :=
  ⟨s.data.map Char.toLower⟩

/-- JS `s.includes(sub)` on strings. -/
def jsIncludes (s sub : String) : Bool :=
  containsSub s.data sub.data

/-! ## Data model -/

/-- `recurrenceConfig` of a recurring reminder. -/
structure RecurrenceConfig where
  selectedDays : List (Fin 7)
  weekFrequency : ℤ
  startDate : ℤ
deriving DecidableEq

/-- A reminder (task) document.  Fields the notification engine does not read
(checklist, snooze bookkeeping, UI text) are omitted. -/
structure Reminder where
  id : String
  title : String
  dueDate : ℤ
  isRecurring : Bool
  recurrenceConfig : Option RecurrenceConfig
  assignedTo : String
  createdBy : String
  familyId : String
deriving DecidableEq

/-- A user document as read from Firestore (`users` collection). -/
structure UserRec where
  role : String
  familyId : String
  displayName : String
deriving DecidableEq

/-- A family document as read from Firestore (`families` collection). -/
structure FamilyRec where
  parentIds : List String
deriving DecidableEq

/-- The document store: total maps from document id to optional record. -/
structure Firestore where
  users : String → Option UserRec
  families : String → Option FamilyRec

/-- The `data` payload of a scheduled notification, restricted to the fields
the delivery handler reads: `reminderId`, `type` (absent on some payloads,
hence `Option`) and `isTest`. -/
structure NotifContent where
  reminderId : String
  ntype : Option String
  isTest : Bool
deriving DecidableEq

/-- One call to `Notifications.scheduleNotificationAsync`: a payload plus a
trigger, where `some t` is a date trigger firing at instant `t` and `none` is
the JS `trigger: null`, i.e. fire immediately. -/
structure NotifRequest where
  content : NotifContent
  trigger : Option ℤ
deriving DecidableEq

/-! ## NotificationGate: the `setupNotificationHandler` delivery hook
(src/unnamed/part_013 lines 286-404).  Given the current viewer (`none` when
no user is signed in or the user document is missing, both of which block)
the handler shows test notifications unconditionally, blocks `completion`
for children, blocks everything except `completion` for parents, and shows
the notification otherwise. -/

def handleNotification (userRole : Option String) (c : NotifContent) : Bool :=
  match userRole with
  | none => false
  | some role =>
    if c.isTest then true
    else if role == "child" && c.ntype == some "completion" then false
    else if role == "parent" && !(c.ntype == some "completion") then false
    else true

/-! ## ReminderNotificationScheduler, version 1
(`scheduleReminderNotification` in src/src/services/NotificationService.ts:
past-due check at lines 70-78, recurring branch at lines 87-146).
Returns the handle issued by the notification service (modeled as the
reminder id) and the list of `scheduleNotificationAsync` calls issued. -/

def scheduleReminderNotificationV1 (r : Reminder) (now : ℤ) (hasPermission : Bool) :
    Option String × List NotifRequest :=
  if !hasPermission then (none, [])
  else if r.dueDate < now then (none, [])
  else
    match r.isRecurring, r.recurrenceConfig with
    | true, some cfg =>
      let nextDate := getNextOccurrence cfg.startDate cfg.selectedDays cfg.weekFrequency now
      if nextDate > now then
        (some r.id, [⟨⟨r.id, none, false⟩, some nextDate⟩])
      else (none, [])
    | _, _ =>
      (some r.id, [⟨⟨r.id, none, false⟩, some r.dueDate⟩])

/-! ## ReminderNotificationScheduler, version 2
(`scheduleReminderNotification` in src/unnamed/part_013 lines 491-594).
This version embeds the payload `type: 'due'` and the `isTest` flag computed
from the title, and always fires at `dueDate`. -/

/-- The due-notification payload built at src/unnamed/part_013 lines 546-559:
`type: 'due'`, `isTest: reminder.title.toLowerCase().includes('test')`. -/
def dueNotificationContent (r : Reminder) : NotifContent :=
  ⟨r.id, some "due", jsIncludes (lowerStr r.title) "test"⟩

def scheduleReminderNotificationV2 (env : Firestore) (r : Reminder) (now : ℤ)
    (hasPermission : Bool) : Option String × List NotifRequest :=
  if !hasPermission then (none, [])
  else
    match env.users r.createdBy with
    | none => (none, [])
    | some creator =>
      if !(creator.familyId == r.familyId) then (none, [])
      else
        match env.users (if creator.role == "parent" then r.assignedTo else r.createdBy) with
        | none => (none, [])
        | some recipient =>
          if !(recipient.familyId == r.familyId) then (none, [])
          else if r.dueDate < now then (none, [])
          else (some r.id, [⟨dueNotificationContent r, some r.dueDate⟩])

/-! ## CompletionNotificationDispatcher
(`sendCompletionNotification` in src/unnamed/part_013 lines 596-716). -/

def completionDelayMs : ℤ := 30000

/-- The completion payload built at src/unnamed/part_013 lines 659-672. -/
def completionNotificationContent (r : Reminder) : NotifContent :=
  ⟨r.id, some "completion", jsIncludes (lowerStr r.title) "test"⟩

/-- The sequence of early checks of `sendCompletionNotification` that run
before any notification is scheduled: creator document exists, creator's
family matches, creator is a parent, completer document exists and matches
the family, and the family document exists. -/
def completionChecksPass (env : Firestore) (r : Reminder) (completedBy : String) : Bool :=
  match env.users r.createdBy with
  | none => false
  | some creator =>
    creator.familyId == r.familyId &&
    creator.role == "parent" &&
    (match env.users completedBy with
     | none => false
     | some completer => completer.familyId == r.familyId) &&
    (env.families r.familyId).isSome

/-- The parents of the reminder's family for which the per-recipient closure
actually reaches `scheduleNotificationAsync`: the parent document must exist
and its `familyId` must still match the reminder's family. -/
def eligibleParents (env : Firestore) (r : Reminder) : List String :=
  match env.families r.familyId with
  | none => []
  | some fam =>
    fam.parentIds.filter (fun p =>
      match env.users p with
      | some u => u.familyId == r.familyId
      | none => false)

/-- The `scheduleNotificationAsync` calls executed by
`sendCompletionNotification`: one per eligible parent, all with the payload
above and a date trigger 30 seconds after dispatch time.  The per-recipient
closures are started eagerly by `parentIds.map(async ...)`, so a rejection of
one closure does not stop the others from issuing their calls; accordingly the
executed calls do not depend on which external calls succeed (`schedOk`). -/
def sendCompletionCalls (env : Firestore) (r : Reminder) (completedBy : String)
    (now : ℤ) (hasPermission : Bool) (schedOk : String → Bool) : List NotifRequest :=
  if !hasPermission then []
  else if !completionChecksPass env r completedBy then []
  else (eligibleParents env r).map (fun _ =>
    ⟨completionNotificationContent r, some (now + completionDelayMs)⟩)

/-- The handles of the completion notifications that were successfully
scheduled: one per eligible parent whose external schedule call succeeded.
Handles issued by the service are modeled as the recipient's id. -/
def sendCompletionScheduled (env : Firestore) (r : Reminder) (completedBy : String)
    (hasPermission : Bool) (schedOk : String → Bool) : List String :=
  if !hasPermission then []
  else if !completionChecksPass env r completedBy then []
  else (eligibleParents env r).filter schedOk

/-- The value `sendCompletionNotification` returns to its caller.  On any
failed check it returns null (`none`).  If some eligible parent's schedule
call rejects, `Promise.all` rejects and the surrounding catch returns null.
Otherwise the source returns `notificationIds[0]`: the entry of the first
parent id in the family list, which is null when that parent was skipped and
`undefined` when the list is empty. -/
def sendCompletionResult (env : Firestore) (r : Reminder) (completedBy : String)
    (hasPermission : Bool) (schedOk : String → Bool) : Option String :=
  if !hasPermission then none
  else if !completionChecksPass env r completedBy then none
  else if (eligibleParents env r).any (fun p => !(schedOk p)) then none
  else
    match env.families r.familyId with
    | none => none
    | some fam =>
      match fam.parentIds with
      | [] => none
      | p0 :: _ => if p0 ∈ eligibleParents env r then some p0 else none

/-! ## DuplicateDeliveryGuard
(the `handledNotifications` ref-backed set in the `Navigation` component,
src/App.tsx lines 55-86).  The received-notification listener skips an id
already in the set, and otherwise records it and processes the callback. -/

/-- Runs the duplicate-delivery guard over a session's sequence of delivery
callbacks, given the set of already-seen ids: `true` means the callback is
processed (and the id recorded), `false` means it is suppressed. -/
def guardRun : List String → List String → List Bool
  | _, [] => []
  | seen, id :: rest =>
    if id ∈ seen then false :: guardRun seen rest
    else true :: guardRun (id :: seen) rest

/-- The outputs the guard produced for the callbacks carrying identifier
`id`, in order, within a session that started with seen-set `seen`. -/
def guardOutputsFor (seen : List String) (ids : List String) (id : String) : List Bool :=
  ((ids.zip (guardRun seen ids)).filter (fun p => p.1 == id)).map Prod.snd

/-! ## LocationTrackingCoordinator (`LocationService`, src/unnamed/part_014).
The class holds a single process-wide `locationSubscription` (the id of the
reminder whose `checkLocationChange` the watch callback invokes) and a
per-reminder anchor map `reminderLocations`.  The haversine distance
(`calculateDistance`, floating point) is abstracted as a parameter
`dist : GeoPoint → GeoPoint → ℚ`; only the comparison of its value against
the 20-meter threshold is observable by the control flow verified here. -/

structure GeoPoint where
  latitude : ℚ
  longitude : ℚ
deriving DecidableEq

def movementThresholdMeters : ℚ := 20

structure LocState where
  locationSubscription : Option String
  reminderLocations : List (String × GeoPoint)
deriving DecidableEq

/-- `Map.get` on the anchor map. -/
def lookupAnchor (m : List (String × GeoPoint)) (id : String) : Option GeoPoint :=
  (m.find? (fun p => p.1 == id)).map Prod.snd

/-- The immediate (fire-now, `trigger: null`) movement-alert notification
raised by `checkLocationChange` (payload `type: 'location_alert'`, the code's
name for the movement-alert category). -/
def movementAlert (id : String) : NotifRequest :=
  ⟨⟨id, some "location_alert", false⟩, none⟩

/-- `LocationService.stopLocationTracking(reminderId)` (lines 130-137):
unconditionally removes the shared position subscription if one exists, and
deletes this reminder's anchor entry. -/
def stopLocationTracking (s : LocState) (id : String) : LocState :=
  { locationSubscription := none,
    reminderLocations := s.reminderLocations.filter (fun p => !(p.1 == id)) }

/-- `LocationService.checkLocationChange(reminderId, newLocation)`
(lines 84-113): no anchor means no-op; a distance strictly above the
20-meter threshold raises one immediate movement alert and stops tracking. -/
def checkLocationChange (dist : GeoPoint → GeoPoint → ℚ) (s : LocState) (id : String)
    (loc : GeoPoint) : LocState × List NotifRequest :=
  match lookupAnchor s.reminderLocations id with
  | none => (s, [])
  | some anchor =>
    if dist anchor loc > movementThresholdMeters then
      (stopLocationTracking s id, [movementAlert id])
    else (s, [])

/-- A device position update: the single watch subscription, when present,
invokes `checkLocationChange` for the reminder id its callback captured;
with no subscription no callback runs. -/
def onPositionUpdate (dist : GeoPoint → GeoPoint → ℚ) (s : LocState) (loc : GeoPoint) :
    LocState × List NotifRequest :=
  match s.locationSubscription with
  | none => (s, [])
  | some id => checkLocationChange dist s id loc

/-! ## Theorems -/

/-! ### Helper lemmas for the recurrence scan -/

lemma weekdayOf_add_mul_seven (d : ℤ) (k : ℕ) : weekdayOf (d + 7 * (k : ℤ)) = weekdayOf d := by
  apply Fin.ext
  show ((d + 7 * (k : ℤ) + 4) % 7).toNat = ((d + 4) % 7).toNat
  omega

lemma weekday_cover (a : ℤ) (w : Fin 7) : ∃ j : ℕ, j < 7 ∧ weekdayOf (a + (j : ℤ)) = w := by
  refine ⟨(((w.val : ℤ) - (a + 4)) % 7).toNat, by omega, ?_⟩
  have hw := w.isLt
  apply Fin.ext
  show ((a + ((((w.val : ℤ) - (a + 4)) % 7).toNat : ℤ) + 4) % 7).toNat = w.val
  omega

/-- Within the `7 * weekFrequency * 2`-day scan window some candidate passes
the acceptance test: a selected weekday occurs `2 * weekFrequency` times in
the window, its whole-weeks-since-start values are consecutive integers, and
any `weekFrequency` consecutive integers contain a multiple of it. -/
lemma occurrenceHit_exists (startDate : ℤ) (selectedDays : List (Fin 7))
    (weekFrequency today : ℤ) (hne : selectedDays ≠ [])
    (hf1 : 1 ≤ weekFrequency) :
    ∃ j : ℕ, j < (7 * weekFrequency * 2).toNat ∧
      occurrenceHit startDate selectedDays weekFrequency today j = true := by
  obtain ⟨w, hw⟩ := List.exists_mem_of_ne_nil _ hne
  obtain ⟨j0, hj0lt, hj0w⟩ := weekday_cover (today / minutesPerDay + 1) w
  set base := (today + minutesPerDay * ((j0 : ℤ) + 1) - startDate) / minutesPerWeek with hbase
  set k : ℤ := (-base) % weekFrequency with hk
  have hk0 : 0 ≤ k := Int.emod_nonneg _ (by omega)
  have hklt : k < weekFrequency := Int.emod_lt_of_pos _ (by omega)
  refine ⟨j0 + 7 * k.toNat, by omega, ?_⟩
  rw [occurrenceHit, Bool.and_eq_true, decide_eq_true_eq, decide_eq_true_eq]
  constructor
  · have harg : (today + minutesPerDay * (((j0 + 7 * k.toNat : ℕ) : ℤ) + 1)) / minutesPerDay
        = today / minutesPerDay + 1 + (j0 : ℤ) + 7 * (k.toNat : ℤ) := by
      simp only [minutesPerDay]
      push_cast
      omega
    rw [harg, weekdayOf_add_mul_seven, hj0w]
    exact hw
  · have harg : (today + minutesPerDay * (((j0 + 7 * k.toNat : ℕ) : ℤ) + 1) - startDate)
        / minutesPerWeek = base + k := by
      simp only [minutesPerDay, minutesPerWeek] at hbase ⊢
      push_cast
      omega
    rw [harg]
    have h2 := Int.emod_add_ediv (-base) weekFrequency
    have h3 : base + k = weekFrequency * (-((-base) / weekFrequency)) := by
      rw [hk]
      linarith
    rw [h3, Int.mul_emod_right]

/-- C1: for every input `(startDate, selectedWeekdays, weekFrequency)` with
`selectedWeekdays` non-empty and `weekFrequency ∈ [1, 52]`, and at every
current instant `now`, `getNextOccurrence` returns an instant whose weekday
is a member of `selectedWeekdays` and for which
`floor(daysSince(startDate) / 7) mod weekFrequency = 0`.  In particular the
degraded scan-exhaustion fallback is never taken for such inputs. -/
theorem C1_recurrence_conforms (startDate : ℤ) (selectedDays : List (Fin 7))
    (weekFrequency now : ℤ) (hne : selectedDays ≠ []) (hf1 : 1 ≤ weekFrequency)
    (hf52 : weekFrequency ≤ 52) :
    weekdayOf (getNextOccurrence startDate selectedDays weekFrequency now / minutesPerDay)
      ∈ selectedDays ∧
    (getNextOccurrence startDate selectedDays weekFrequency now - startDate)
      / minutesPerDay / 7 % weekFrequency = 0 := by
  rw [getNextOccurrence]
  set today := minutesPerDay * (now / minutesPerDay) + startDate % minutesPerDay with htoday
  by_cases hstart : startDate > today ∧ weekdayOf (startDate / minutesPerDay) ∈ selectedDays
  · rw [if_pos hstart]
    refine ⟨hstart.2, ?_⟩
    rw [sub_self]
    simp [Int.zero_ediv, Int.zero_emod]
  · rw [if_neg hstart]
    rcases hfind : (List.range (7 * weekFrequency * 2).toNat).find?
        (occurrenceHit startDate selectedDays weekFrequency today) with _ | j
    · exfalso
      obtain ⟨j, hjlt, hjhit⟩ :=
        occurrenceHit_exists startDate selectedDays weekFrequency today hne hf1
      exact (List.find?_eq_none.mp hfind j (List.mem_range.mpr hjlt)) hjhit
    · have hhit := List.find?_some hfind
      rw [occurrenceHit, Bool.and_eq_true, decide_eq_true_eq, decide_eq_true_eq] at hhit
      refine ⟨hhit.1, ?_⟩
      show (today + minutesPerDay * ((j : ℤ) + 1) - startDate) / minutesPerDay / 7
          % weekFrequency = 0
      have hdiv : (today + minutesPerDay * ((j : ℤ) + 1) - startDate) / minutesPerDay / 7
          = (today + minutesPerDay * ((j : ℤ) + 1) - startDate) / minutesPerWeek := by
        simp only [minutesPerDay, minutesPerWeek]
        omega
      rw [hdiv]
      exact hhit.2

/-- Witness for C1 at a concrete input: start at the epoch (a Thursday,
midnight), Thursdays selected, weekly cadence, evaluated at `now = 0`. -/
theorem C1_recurrence_conforms_witness :
    ([(4 : Fin 7)] ≠ ([] : List (Fin 7))) ∧ (1 : ℤ) ≤ (1 : ℤ) ∧ (1 : ℤ) ≤ (52 : ℤ) ∧
    (weekdayOf (getNextOccurrence 0 [(4 : Fin 7)] 1 0 / minutesPerDay) ∈ [(4 : Fin 7)] ∧
     (getNextOccurrence 0 [(4 : Fin 7)] 1 0 - 0) / minutesPerDay / 7 % 1 = 0) :=
  ⟨by decide, by decide, by decide,
   C1_recurrence_conforms 0 [(4 : Fin 7)] 1 0 (by decide) (by decide) (by decide)⟩

/-! ### Helper lemmas for the JS string model -/

lemma startsWithCS_iff (sub : List Char) : ∀ s : List Char,
    (startsWithCS s sub = true ↔ ∃ t, s = sub ++ t) := by
  induction sub with
  | nil => intro s; simp [startsWithCS]
  | cons b tl ih =>
    intro s
    cases s with
    | nil => simp [startsWithCS]
    | cons a s' =>
      rw [startsWithCS, Bool.and_eq_true, beq_iff_eq, ih s']
      constructor
      · rintro ⟨rfl, t, rfl⟩
        exact ⟨t, rfl⟩
      · rintro ⟨t, h⟩
        injection h with h1 h2
        exact ⟨h1, t, h2⟩

lemma containsSub_iff (sub : List Char) : ∀ s : List Char,
    (containsSub s sub = true ↔ ∃ l r, s = l ++ (sub ++ r)) := by
  intro s
  induction s with
  | nil =>
    rw [containsSub, startsWithCS_iff]
    constructor
    · rintro ⟨t, h⟩
      exact ⟨[], t, h⟩
    · rintro ⟨l, r, h⟩
      cases l with
      | nil => exact ⟨r, h⟩
      | cons x xs => simp at h
  | cons a s' ih =>
    rw [containsSub, Bool.or_eq_true, startsWithCS_iff, ih]
    constructor
    · rintro (⟨t, h⟩ | ⟨l, r, h⟩)
      · exact ⟨[], t, h⟩
      · refine ⟨a :: l, r, ?_⟩
        rw [List.cons_append, h]
    · rintro ⟨l, r, h⟩
      cases l with
      | nil => exact Or.inl ⟨r, h⟩
      | cons x xs =>
        injection h with h1 h2
        exact Or.inr ⟨xs, r, h2⟩

/-! ### C2 / C8 / C9: the role-based delivery gate -/

/-- C2: the role gate blocks `due` and movement alerts (payload type
`location_alert`) for parents and shows them for children, and shows
`completion` only for parents; in particular the four concrete values the
spec lists hold, and for a viewer whose role is parent or child the gate
delivers `due`/movement-alert exactly to children and `completion` exactly to
parents. -/
theorem C2_role_gate (role : String) (rid : String)
    (hrole : role = "parent" ∨ role = "child") :
    handleNotification (some "parent") ⟨rid, some "due", false⟩ = false ∧
    handleNotification (some "child") ⟨rid, some "completion", false⟩ = false ∧
    handleNotification (some "child") ⟨rid, some "due", false⟩ = true ∧
    handleNotification (some "parent") ⟨rid, some "completion", false⟩ = true ∧
    (handleNotification (some role) ⟨rid, some "due", false⟩ = true ↔ role = "child") ∧
    (handleNotification (some role) ⟨rid, some "location_alert", false⟩ = true ↔ role = "child") ∧
    (handleNotification (some role) ⟨rid, some "completion", false⟩ = true ↔ role = "parent") := by
  rcases hrole with h | h <;> subst h <;> simp [handleNotification]

/-- Witness for C2 at the concrete viewer role `"parent"`. -/
theorem C2_role_gate_witness :
    (("parent" : String) = "parent" ∨ ("parent" : String) = "child") ∧
    (handleNotification (some "parent") ⟨"n1", some "due", false⟩ = false ∧
     handleNotification (some "child") ⟨"n1", some "completion", false⟩ = false ∧
     handleNotification (some "child") ⟨"n1", some "due", false⟩ = true ∧
     handleNotification (some "parent") ⟨"n1", some "completion", false⟩ = true ∧
     (handleNotification (some "parent") ⟨"n1", some "due", false⟩ = true ↔ ("parent" : String) = "child") ∧
     (handleNotification (some "parent") ⟨"n1", some "location_alert", false⟩ = true ↔ ("parent" : String) = "child") ∧
     (handleNotification (some "parent") ⟨"n1", some "completion", false⟩ = true ↔ ("parent" : String) = "parent")) :=
  ⟨Or.inl rfl, C2_role_gate "parent" "n1" (Or.inl rfl)⟩

/-- C8 counterexample: a notification with the unrecognized category
`"mystery"` is delivered to a child viewer, so the gate does not fail closed
for every role as the claim states. -/
theorem C8_fail_closed_counterexample :
    handleNotification (some "child") ⟨"n1", some "mystery", false⟩ = true := by
  decide

/-- C8 amended: a notification whose category is not one of `due`,
`completion` or `location_alert` is suppressed for a parent viewer, but it is
delivered to a child viewer: the gate fails closed only for parents and fails
open for children (a child is blocked only on `completion`). -/
theorem C8_fail_closed_amended (t : Option String) (rid : String)
    (hdue : t ≠ some "due") (hcomp : t ≠ some "completion")
    (hloc : t ≠ some "location_alert") :
    handleNotification (some "parent") ⟨rid, t, false⟩ = false ∧
    handleNotification (some "child") ⟨rid, t, false⟩ = true := by
  have hc : (t == some "completion") = false := by
    rw [beq_eq_false_iff_ne]
    exact hcomp
  constructor <;> simp [handleNotification, hc]

/-- Witness for the amended C8 at the concrete category `"mystery"`. -/
theorem C8_fail_closed_amended_witness :
    ((some "mystery" : Option String) ≠ some "due") ∧
    ((some "mystery" : Option String) ≠ some "completion") ∧
    ((some "mystery" : Option String) ≠ some "location_alert") ∧
    (handleNotification (some "parent") ⟨"n1", some "mystery", false⟩ = false ∧
     handleNotification (some "child") ⟨"n1", some "mystery", false⟩ = true) :=
  ⟨by decide, by decide, by decide,
   C8_fail_closed_amended (some "mystery") "n1" (by decide) (by decide) (by decide)⟩

/-! ### C3: the duplicate-delivery guard -/

/-- Behaviour of the guard run from an arbitrary seen-set: for a given id the
outputs are all `false` if the id was already seen, otherwise one `true`
followed by `false`s. -/
lemma guardOutputsFor_spec (ids : List String) : ∀ seen : List String, ∀ id : String,
    guardOutputsFor seen ids id =
      if id ∈ seen then List.replicate (ids.count id) false
      else if id ∈ ids then true :: List.replicate (ids.count id - 1) false
      else [] := by
  induction ids with
  | nil => intro seen id; simp [guardOutputsFor, guardRun]
  | cons x rest ih =>
    intro seen id
    by_cases hx : x ∈ seen
    · by_cases hxid : x = id
      · subst hxid
        have hout : guardOutputsFor seen (x :: rest) x = false :: guardOutputsFor seen rest x := by
          simp [guardOutputsFor, guardRun, hx]
        rw [hout, ih seen x, if_pos hx, if_pos hx]
        simp [List.count_cons, List.replicate_succ]
      · have hxid' : (x == id) = false := by
          rw [beq_eq_false_iff_ne]
          exact hxid
        have hout : guardOutputsFor seen (x :: rest) id = guardOutputsFor seen rest id := by
          simp [guardOutputsFor, guardRun, hx, hxid']
        rw [hout, ih seen id]
        simp [List.count_cons, hxid', List.mem_cons, Ne.symm hxid]
    · by_cases hxid : x = id
      · subst hxid
        have hout : guardOutputsFor seen (x :: rest) x = true :: guardOutputsFor (x :: seen) rest x := by
          simp [guardOutputsFor, guardRun, hx]
        rw [hout, ih (x :: seen) x, if_neg hx]
        simp [List.count_cons, List.mem_cons]
      · have hxid' : (x == id) = false := by
          rw [beq_eq_false_iff_ne]
          exact hxid
        have hout : guardOutputsFor seen (x :: rest) id = guardOutputsFor (x :: seen) rest id := by
          simp [guardOutputsFor, guardRun, hx, hxid']
        rw [hout, ih (x :: seen) id]
        simp [List.count_cons, hxid', List.mem_cons, Ne.symm hxid]

/-- C3: in a session starting with an empty seen-set, for every notification
identifier the guard processes the first delivery callback carrying that id
(output `true`) and suppresses every subsequent callback with the same id
(output `false`), however many redeliveries occur. -/
theorem C3_duplicate_guard (ids : List String) (id : String) :
    guardOutputsFor [] ids id =
      if id ∈ ids then true :: List.replicate (ids.count id - 1) false
      else [] := by
  rw [guardOutputsFor_spec ids [] id]
  simp

/-! ### C9: the isTest bypass -/

/-- C9: every `scheduleNotificationAsync` request issued by the version-2
due-reminder scheduler carries `isTest = true` exactly when the reminder's
title contains the substring `"test"` after lower-casing, and a payload with
`isTest = true` is delivered to every signed-in viewer regardless of role,
bypassing the role-based filtering. -/
theorem C9_test_bypass (env : Firestore) (r : Reminder) (now : ℤ) (perm : Bool)
    (req : NotifRequest)
    (hreq : req ∈ (scheduleReminderNotificationV2 env r now perm).2) :
    (req.content.isTest = true ↔
      ∃ l t, (lowerStr r.title).data = l ++ ("test".data ++ t)) ∧
    (req.content.isTest = true → ∀ role, handleNotification (some role) req.content = true) := by
  have hcontent : req.content = dueNotificationContent r := by
    unfold scheduleReminderNotificationV2 at hreq
    repeat' split at hreq
    all_goals simp_all
  constructor
  · rw [hcontent]
    show jsIncludes (lowerStr r.title) "test" = true ↔ _
    rw [jsIncludes, containsSub_iff]
  · intro ht role
    simp [handleNotification, ht]

def c9Env : Firestore :=
  ⟨fun uid =>
      if uid = "p" then some ⟨"parent", "f", "P"⟩
      else if uid = "c" then some ⟨"child", "f", "C"⟩
      else none,
   fun _ => none⟩

def c9Reminder : Reminder :=
  ⟨"r1", "Take the TEST", 10, false, none, "c", "p", "f"⟩

/-- Witness for C9: the scheduler run on a reminder titled `"Take the TEST"`
issues a request, and the theorem applies to it. -/
theorem C9_test_bypass_witness :
    ((⟨dueNotificationContent c9Reminder, some (10 : ℤ)⟩ : NotifRequest)
       ∈ (scheduleReminderNotificationV2 c9Env c9Reminder 0 true).2) ∧
    (((⟨dueNotificationContent c9Reminder, some (10 : ℤ)⟩ : NotifRequest).content.isTest = true ↔
       ∃ l t, (lowerStr c9Reminder.title).data = l ++ ("test".data ++ t)) ∧
     ((⟨dueNotificationContent c9Reminder, some (10 : ℤ)⟩ : NotifRequest).content.isTest = true →
       ∀ role, handleNotification (some role)
         (⟨dueNotificationContent c9Reminder, some (10 : ℤ)⟩ : NotifRequest).content = true)) :=
  ⟨by decide,
   C9_test_bypass c9Env c9Reminder 0 true ⟨dueNotificationContent c9Reminder, some 10⟩ (by decide)⟩

/-! ### C4: no past-dated scheduling -/

def c4BoundaryReminder : Reminder :=
  ⟨"r4", "walk dog", 0, false, none, "c", "p", "f"⟩

/-- C4 counterexample: a non-recurring task whose `dueDate` equals the
current instant is not strictly in the future, yet the scheduler issues a
scheduling call and returns a handle — the source skips only when
`dueDate < now` holds strictly. -/
theorem C4_no_past_scheduling_counterexample :
    scheduleReminderNotificationV1 c4BoundaryReminder 0 true
      = (some "r4", [⟨⟨"r4", none, false⟩, some 0⟩]) := by
  decide

/-- C4 amended: the scheduler returns `none` and issues no scheduling call
for every task whose `dueDate` is strictly in the past, and for every
recurring task (with a recurrence config) whose computed next occurrence is
not strictly in the future; a task whose `dueDate` equals the current
instant exactly is scheduled. -/
theorem C4_no_past_scheduling_amended (r : Reminder) (now : ℤ) (perm : Bool)
    (h : r.dueDate < now ∨
      (∃ cfg, r.isRecurring = true ∧ r.recurrenceConfig = some cfg ∧
        getNextOccurrence cfg.startDate cfg.selectedDays cfg.weekFrequency now ≤ now)) :
    scheduleReminderNotificationV1 r now perm = (none, []) := by
  unfold scheduleReminderNotificationV1
  cases perm
  · simp
  · rcases h with h | ⟨cfg, hrec, hcfg, hnext⟩
    · simp [h]
    · rw [hrec, hcfg]
      by_cases hdue : r.dueDate < now
      · simp [hdue]
      · simp [hdue, not_lt.mpr hnext]

def c4PastReminder : Reminder :=
  ⟨"r4p", "walk dog", 0, false, none, "c", "p", "f"⟩

/-- Witness for the amended C4: a task one minute past due is skipped. -/
theorem C4_no_past_scheduling_amended_witness :
    (c4PastReminder.dueDate < 1 ∨
      (∃ cfg, c4PastReminder.isRecurring = true ∧ c4PastReminder.recurrenceConfig = some cfg ∧
        getNextOccurrence cfg.startDate cfg.selectedDays cfg.weekFrequency 1 ≤ 1)) ∧
    scheduleReminderNotificationV1 c4PastReminder 1 true = (none, []) :=
  ⟨Or.inl (by decide),
   C4_no_past_scheduling_amended c4PastReminder 1 true (Or.inl (by decide))⟩

/-! ### C5: completion-dispatch fan-out -/

/-- C5: `sendCompletionNotification` schedules completion notifications only
when the task's creator has the parent role; with a family whose guardian
list holds exactly two guardians who are both still members of the task's
family, exactly two completion notifications are scheduled, each with a fire
time 30 seconds (30000 ms) after dispatch time; with a child creator, none
are scheduled. -/
theorem C5_completion_fanout (env : Firestore) (r : Reminder) (completedBy : String)
    (now : ℤ) (schedOk : String → Bool) (creator completer : UserRec)
    (fam : FamilyRec) (p1 p2 : String) (u1 u2 : UserRec)
    (hcreator : env.users r.createdBy = some creator)
    (hcfam : creator.familyId = r.familyId)
    (hcompleter : env.users completedBy = some completer)
    (hcompfam : completer.familyId = r.familyId)
    (hfam : env.families r.familyId = some fam)
    (hparents : fam.parentIds = [p1, p2])
    (hp1 : env.users p1 = some u1) (hu1 : u1.familyId = r.familyId)
    (hp2 : env.users p2 = some u2) (hu2 : u2.familyId = r.familyId) :
    (creator.role = "parent" →
      sendCompletionCalls env r completedBy now true schedOk =
        [⟨completionNotificationContent r, some (now + completionDelayMs)⟩,
         ⟨completionNotificationContent r, some (now + completionDelayMs)⟩]) ∧
    (creator.role = "child" →
      sendCompletionCalls env r completedBy now true schedOk = []) := by
  constructor
  · intro hrole
    unfold sendCompletionCalls completionChecksPass eligibleParents
    rw [hcreator, hfam]
    simp [hcfam, hrole, hcompleter, hcompfam, hparents, hp1, hu1, hp2, hu2]
  · intro hrole
    unfold sendCompletionCalls completionChecksPass
    rw [hcreator]
    simp [hrole, hcfam, hcompleter, hcompfam]

def c5Env : Firestore :=
  ⟨fun uid =>
      if uid = "mom" then some ⟨"parent", "f", "M"⟩
      else if uid = "dad" then some ⟨"parent", "f", "D"⟩
      else if uid = "kid" then some ⟨"child", "f", "K"⟩
      else none,
   fun fid => if fid = "f" then some ⟨["mom", "dad"]⟩ else none⟩

def c5Reminder : Reminder :=
  ⟨"r5", "feed cat", 0, false, none, "kid", "mom", "f"⟩

/-- Witness for C5: a two-guardian family with a guardian-created task yields
exactly two completion notifications thirty seconds after dispatch. -/
theorem C5_completion_fanout_witness :
    c5Env.families c5Reminder.familyId = some ⟨["mom", "dad"]⟩ ∧
    ((⟨"parent", "f", "M"⟩ : UserRec).role = "parent" →
      sendCompletionCalls c5Env c5Reminder "kid" 0 true (fun _ => true) =
        [⟨completionNotificationContent c5Reminder, some (0 + completionDelayMs)⟩,
         ⟨completionNotificationContent c5Reminder, some (0 + completionDelayMs)⟩]) ∧
    ((⟨"parent", "f", "M"⟩ : UserRec).role = "child" →
      sendCompletionCalls c5Env c5Reminder "kid" 0 true (fun _ => true) = []) :=
  ⟨by decide,
   (C5_completion_fanout c5Env c5Reminder "kid" 0 (fun _ => true)
      ⟨"parent", "f", "M"⟩ ⟨"child", "f", "K"⟩ ⟨["mom", "dad"]⟩ "mom" "dad"
      ⟨"parent", "f", "M"⟩ ⟨"parent", "f", "D"⟩
      (by decide) rfl (by decide) rfl (by decide) rfl
      (by decide) rfl (by decide) rfl).1,
   (C5_completion_fanout c5Env c5Reminder "kid" 0 (fun _ => true)
      ⟨"parent", "f", "M"⟩ ⟨"child", "f", "K"⟩ ⟨["mom", "dad"]⟩ "mom" "dad"
      ⟨"parent", "f", "M"⟩ ⟨"parent", "f", "D"⟩
      (by decide) rfl (by decide) rfl (by decide) rfl
      (by decide) rfl (by decide) rfl).2⟩

/-! ### C6: movement threshold and one-shot alerting -/

/-- C6: during an active tracking session (shared subscription routed to
`id`, anchor present for `id`), a position update at distance at most 20
meters from the anchor raises no movement alert and leaves the session
intact, while an update at distance strictly greater than 20 meters raises
exactly one immediate (`trigger: null`, fire-now) movement alert and stops
tracking for that task, so every subsequent position update raises no
further alert.  The distance function is abstract: the source computes it
with the haversine formula (Earth radius 6371 km) in floating point, and
only its comparison against the threshold steers the control flow proved
here. -/
theorem C6_movement_threshold (dist : GeoPoint → GeoPoint → ℚ) (s : LocState)
    (id : String) (anchor : GeoPoint)
    (hsub : s.locationSubscription = some id)
    (hanchor : lookupAnchor s.reminderLocations id = some anchor) :
    (∀ loc, dist anchor loc ≤ movementThresholdMeters →
       onPositionUpdate dist s loc = (s, [])) ∧
    (∀ loc, movementThresholdMeters < dist anchor loc →
       (onPositionUpdate dist s loc).2 = [movementAlert id] ∧
       (movementAlert id).trigger = none ∧
       (onPositionUpdate dist s loc).1 = stopLocationTracking s id ∧
       ∀ loc', onPositionUpdate dist (onPositionUpdate dist s loc).1 loc' =
         ((onPositionUpdate dist s loc).1, [])) := by
  constructor
  · intro loc hle
    simp only [onPositionUpdate, hsub, checkLocationChange, hanchor]
    rw [if_neg (not_lt.mpr hle)]
  · intro loc hgt
    have hupd : onPositionUpdate dist s loc = (stopLocationTracking s id, [movementAlert id]) := by
      simp only [onPositionUpdate, hsub, checkLocationChange, hanchor]
      rw [if_pos hgt]
    refine ⟨by rw [hupd], rfl, by rw [hupd], ?_⟩
    intro loc'
    rw [hupd]
    rfl

def c6Dist : GeoPoint → GeoPoint → ℚ := fun _ loc => loc.latitude

def c6State : LocState := ⟨some "r6", [("r6", ⟨0, 0⟩)]⟩

/-- Witness for C6: with a session tracking `"r6"`, an update the distance
function puts at 19 meters raises nothing and one at 21 meters raises the
single immediate alert. -/
theorem C6_movement_threshold_witness :
    c6State.locationSubscription = some "r6" ∧
    onPositionUpdate c6Dist c6State ⟨19, 0⟩ = (c6State, []) ∧
    (onPositionUpdate c6Dist c6State ⟨21, 0⟩).2 = [movementAlert "r6"] :=
  ⟨rfl,
   (C6_movement_threshold c6Dist c6State "r6" ⟨0, 0⟩ rfl rfl).1 ⟨19, 0⟩ (by decide),
   ((C6_movement_threshold c6Dist c6State "r6" ⟨0, 0⟩ rfl rfl).2 ⟨21, 0⟩ (by decide)).1⟩

/-! ### C7: partial failure in completion dispatch -/

def c7Env : Firestore :=
  ⟨fun uid =>
      if uid = "mom7" then some ⟨"parent", "f7", "M"⟩
      else if uid = "dad7" then some ⟨"parent", "f7", "D"⟩
      else if uid = "kid7" then some ⟨"child", "f7", "K"⟩
      else none,
   fun fid => if fid = "f7" then some ⟨["mom7", "dad7"]⟩ else none⟩

def c7Reminder : Reminder :=
  ⟨"r7", "wash dishes", 0, false, none, "kid7", "mom7", "f7"⟩

def c7SchedOk : String → Bool := fun p => p == "dad7"

/-- C7 counterexample: when the first guardian's schedule call fails and the
second succeeds, one completion notification is successfully scheduled
(handle `"dad7"`), but `sendCompletionNotification` returns null — the
operation does not return the handles of the notifications that succeeded,
contrary to the claim. -/
theorem C7_partial_failure_counterexample :
    sendCompletionScheduled c7Env c7Reminder "kid7" true c7SchedOk = ["dad7"] ∧
    sendCompletionResult c7Env c7Reminder "kid7" true c7SchedOk = none := by
  decide

/-- C7 amended: failure of one recipient's schedule call does not abort the
scheduling of the other recipients' notifications (the executed schedule
calls are independent of which external calls fail), but the operation does
not return the handles of all successfully scheduled notifications: it
returns null whenever any eligible recipient's schedule call fails, and
otherwise returns only the first family guardian's handle. -/
theorem C7_partial_failure_amended (env : Firestore) (r : Reminder) (completedBy : String)
    (now : ℤ) (perm : Bool) (schedOk schedOk' : String → Bool) :
    (sendCompletionCalls env r completedBy now perm schedOk =
       sendCompletionCalls env r completedBy now perm schedOk') ∧
    ((eligibleParents env r).any (fun p => !(schedOk p)) = true →
       sendCompletionResult env r completedBy perm schedOk = none) ∧
    (∀ fam p0 rest, env.families r.familyId = some fam → fam.parentIds = p0 :: rest →
       p0 ∈ eligibleParents env r →
       (eligibleParents env r).any (fun p => !(schedOk p)) = false →
       perm = true → completionChecksPass env r completedBy = true →
       sendCompletionResult env r completedBy perm schedOk = some p0) := by
  refine ⟨rfl, ?_, ?_⟩
  · intro hany
    unfold sendCompletionResult
    cases perm
    · rfl
    · by_cases hchecks : completionChecksPass env r completedBy
      · simp [hchecks, hany]
      · simp [hchecks]
  · intro fam p0 rest hfam hparents hp0 hnone hperm hchecks
    subst hperm
    unfold sendCompletionResult
    rw [hfam]
    simp [hchecks, hnone, hparents, hp0]

/-- Witness for the amended C7, at the concrete two-guardian family where
the first guardian's schedule call fails. -/
theorem C7_partial_failure_amended_witness :
    (sendCompletionCalls c7Env c7Reminder "kid7" 0 true c7SchedOk =
       sendCompletionCalls c7Env c7Reminder "kid7" 0 true (fun _ => true)) ∧
    ((eligibleParents c7Env c7Reminder).any (fun p => !(c7SchedOk p)) = true →
       sendCompletionResult c7Env c7Reminder "kid7" true c7SchedOk = none) ∧
    ((eligibleParents c7Env c7Reminder).any (fun p => !(c7SchedOk p)) = true) ∧
    sendCompletionResult c7Env c7Reminder "kid7" true c7SchedOk = none := by
  refine ⟨(C7_partial_failure_amended c7Env c7Reminder "kid7" 0 true c7SchedOk (fun _ => true)).1,
          ?_, by decide, ?_⟩
  · intro h
    exact (C7_partial_failure_amended c7Env c7Reminder "kid7" 0 true c7SchedOk c7SchedOk).2.1 h
  · exact (C7_partial_failure_amended c7Env c7Reminder "kid7" 0 true c7SchedOk c7SchedOk).2.1
      (by decide)

/-! ### C10: the shared position subscription -/

/-- C10: `stopLocationTracking` called with any reminder id removes the
single process-wide position subscription, so afterwards no reminder —
including other reminders whose anchor entries remain untouched in the
per-task map — receives any further position update, while the anchor
entries of every other reminder are preserved. -/
theorem C10_shared_subscription (s : LocState) (id : String) :
    (stopLocationTracking s id).locationSubscription = none ∧
    (∀ dist loc, onPositionUpdate dist (stopLocationTracking s id) loc
        = (stopLocationTracking s id, [])) ∧
    (∀ id', id' ≠ id →
      lookupAnchor (stopLocationTracking s id).reminderLocations id'
        = lookupAnchor s.reminderLocations id') := by
  refine ⟨rfl, fun dist loc => rfl, ?_⟩
  intro id' hne
  show lookupAnchor (s.reminderLocations.filter (fun p => !(p.1 == id))) id'
      = lookupAnchor s.reminderLocations id'
  induction s.reminderLocations with
  | nil => rfl
  | cons hd tl ih =>
    by_cases hhd : hd.1 = id
    · have h1 : (hd.1 == id) = true := beq_iff_eq.mpr hhd
      have h2 : (hd.1 == id') = false := by
        rw [beq_eq_false_iff_ne, hhd]
        exact Ne.symm hne
      simp [lookupAnchor, List.filter_cons, h1, List.find?_cons, h2] at ih ⊢
      exact ih
    · have h1 : (hd.1 == id) = false := beq_eq_false_iff_ne.mpr hhd
      by_cases h3 : hd.1 = id'
      · have h4 : (hd.1 == id') = true := beq_iff_eq.mpr h3
        simp [lookupAnchor, List.filter_cons, h1, List.find?_cons, h4]
      · have h4 : (hd.1 == id') = false := beq_eq_false_iff_ne.mpr h3
        simp [lookupAnchor, List.filter_cons, h1, List.find?_cons, h4] at ih ⊢
        exact ih

def c10State : LocState := ⟨some "a", [("a", ⟨1, 2⟩), ("b", ⟨3, 4⟩)]⟩

/-- Witness for C10: stopping tracking for `"b"` clears the shared
subscription, silences all subsequent updates, and keeps `"a"`'s anchor. -/
theorem C10_shared_subscription_witness :
    (("a" : String) ≠ "b") ∧
    (stopLocationTracking c10State "b").locationSubscription = none ∧
    lookupAnchor (stopLocationTracking c10State "b").reminderLocations "a"
      = lookupAnchor c10State.reminderLocations "a" :=
  ⟨by decide,
   (C10_shared_subscription c10State "b").1,
   (C10_shared_subscription c10State "b").2.2 "a" (by decide)⟩
